import Mathlib

/-!
# The `00-helloworld` example: frame loop and geometry buffers

A shallow embedding of `examples/00-helloworld/helloworld.cpp`.

* `uint32_t` / `uint16_t` values are natural numbers; every arithmetic result
  the source computes in a fixed width is reduced modulo `2 ^ 32` / `2 ^ 16`.
* `std::vector<T>` is `List T`; `std::vector::resize` is `vector_resize`.
* Calls into the rendering library and the GUI layer are recorded, in program
  order, as a list of `Call` values returned next to the new application state.
* `entry::processEvents` is the environment: what it returns and what it leaves
  in its reference arguments is an `Events` value handed to `update`.
-/

namespace HelloWorld

/-- Modulus of `uint32_t` arithmetic. -/
def UINT32_MOD : Nat := 2 ^ 32

/-- Modulus of `uint16_t` arithmetic. -/
def UINT16_MOD : Nat := 2 ^ 16

/-- A C++ `float`, carried as its IEEE-754 binary32 bit pattern. The program
only ever default-initialises floats and copies them; it does no arithmetic. -/
structure F32 where
  bits : Nat
deriving DecidableEq, Repr

/-- The literal `0.0f`: the all-zero bit pattern. -/
def F32.zero : F32 := ⟨0⟩

/-- The record `struct Vertex` (source lines 17-27) with its default member
initialisers. The static `s_layout` is not part of an object. -/
structure Vertex where
  x : F32 := F32.zero
  y : F32 := F32.zero
  color : Nat := 0
  tex_x : F32 := F32.zero
  tex_y : F32 := F32.zero
deriving DecidableEq, Repr

/-- The value `Vertex()` produced by the defaulted constructor. -/
instance : Inhabited Vertex := ⟨{}⟩

/-- The value of `sizeof(float)`. -/
def sizeof_float : Nat := 4

/-- The value of `sizeof(uint32_t)`. -/
def sizeof_uint32_t : Nat := 4

/-- The value of `sizeof(Vertex)`: five 4-byte members of alignment 4, in
declaration order, hence no padding. -/
def sizeof_Vertex : Nat :=
  sizeof_float + sizeof_float + sizeof_uint32_t + sizeof_float + sizeof_float

/-- The standard library operation `std::vector<T>::resize(n)`: when `n` is
below the current size the container is reduced to its first `n` elements,
otherwise `n - size()` value-initialised elements are appended. -/
def vector_resize {α : Type} (dflt : α) (v : List α) (n : Nat) : List α :=
  if n < v.length then v.take n else v ++ List.replicate (n - v.length) dflt

/-- The function `resizeBuffer` (source lines 44-48); the two vectors passed by
reference are returned. -/
def resizeBuffer (size : Nat) (vertices : List Vertex) (indexes : List Nat) :
    List Vertex × List Nat :=
  (vector_resize default vertices size, vector_resize 0 indexes size)

/-- The result of `bgfx::copy(_data, _size)`: the array the pointer designates
at the time of the call and the byte count asked for. -/
structure Memory (α : Type) where
  data : List α
  size : Nat
deriving DecidableEq, Repr

/-- The calls `update` makes into the rendering library and the GUI layer. -/
inductive Call where
  | imguiBeginFrame (mx my : Int) (button : Nat) (scroll : Int) (width height : Nat)
  | showExampleDialog
  | imguiEndFrame
  | setViewRect (id x y width height : Nat)
  | updateVertexBuffer (handle startVertex : Nat) (mem : Memory Vertex)
  | updateIndexBuffer (handle startIndex : Nat) (mem : Memory Nat)
  | touch (id : Nat)
  | dbgTextPrintf (x y attr : Nat) (format : String) (arg : Nat)
  | frame
deriving DecidableEq, Repr

/-- The function `updateBufferData` (source lines 50-54). The vector size is
cast to `uint32_t`, multiplied by the element size, and received by
`bgfx::copy` in a `uint32_t` parameter. -/
def updateBufferData (vertices : List Vertex) (indexes : List Nat) (vbh ibh : Nat) :
    List Call :=
  [ Call.updateVertexBuffer vbh 0
      ⟨vertices, ((vertices.length % UINT32_MOD) * sizeof_Vertex) % UINT32_MOD⟩,
    Call.updateIndexBuffer ibh 0
      ⟨indexes, ((indexes.length % UINT32_MOD) * sizeof_uint32_t) % UINT32_MOD⟩ ]

/-- The enumeration `entry::MouseButton`, as far as `update` reads it. -/
inductive MouseButton where
  | Left
  | Middle
  | Right
deriving DecidableEq, Repr

/-- The record `entry::MouseState`, as far as `update` reads it. -/
structure MouseState where
  m_mx : Int
  m_my : Int
  m_mz : Int
  m_buttons : MouseButton → Nat

/-- Named constants of the library headers that the example uses; their values
are not fixed by this file. -/
structure Constants where
  BGFX_DEBUG_TEXT : Nat
  BGFX_RESET_VSYNC : Nat
  IMGUI_MBUT_LEFT : Nat
  IMGUI_MBUT_RIGHT : Nat
  IMGUI_MBUT_MIDDLE : Nat

/-- One call of `entry::processEvents`: its return value (`true` when the
platform asks the application to exit) and the values it leaves in its five
reference arguments. -/
structure Events where
  exit : Bool
  width : Nat
  height : Nat
  debug : Nat
  reset : Nat
  mouse : MouseState

/-- The data members of `class ExampleHelloWorld` (source lines 59-64 and
159-164). -/
structure ExampleHelloWorld where
  vertices : List Vertex
  indexes : List Nat
  vbh : Nat
  ibh : Nat
  object_count : Nat
  m_mouseState : MouseState
  m_width : Nat
  m_height : Nat
  m_debug : Nat
  m_reset : Nat

/-- The constructor (source lines 59-69): both vectors start empty and
`object_count` starts at 53000; the members without an initialiser keep
whatever the storage `mem` held. -/
def ExampleHelloWorld.construct (mem : ExampleHelloWorld) : ExampleHelloWorld :=
  { mem with vertices := [], indexes := [], object_count := 53000 }

/-- The state effect of `init` (source lines 71-105): the window size and the
debug and reset flags are stored and the two handles returned by
`createDynamicVertexBuffer` and `createDynamicIndexBuffer` are kept. -/
def ExampleHelloWorld.init (K : Constants) (s : ExampleHelloWorld)
    (_width _height vbh ibh : Nat) : ExampleHelloWorld :=
  { s with m_width := _width, m_height := _height,
           m_debug := K.BGFX_DEBUG_TEXT, m_reset := K.BGFX_RESET_VSYNC,
           vbh := vbh, ibh := ibh }

/-- Source line 138, `object_count += object_count < 55000;`. -/
def object_count_step (object_count : Nat) : Nat :=
  (object_count + (if object_count < 55000 then 1 else 0)) % UINT32_MOD

/-- Source line 139, `const uint32_t vertex_count = 3 * object_count;`. -/
def vertex_count (object_count : Nat) : Nat :=
  (3 * object_count) % UINT32_MOD

/-- The third argument of `imguiBeginFrame` (source lines 123-125). -/
def mouseButtons (K : Constants) (m : MouseState) : Nat :=
  ((if m.m_buttons MouseButton.Left ≠ 0 then K.IMGUI_MBUT_LEFT else 0)
    ||| (if m.m_buttons MouseButton.Right ≠ 0 then K.IMGUI_MBUT_RIGHT else 0))
    ||| (if m.m_buttons MouseButton.Middle ≠ 0 then K.IMGUI_MBUT_MIDDLE else 0)

/-- What one call of `update` yields: its return value, the application state
it leaves, and the calls it issued in order. -/
structure UpdateResult where
  ret : Bool
  app : ExampleHelloWorld
  calls : List Call

/-- The method `ExampleHelloWorld::update` (source lines 117-157). -/
def ExampleHelloWorld.update (K : Constants) (s : ExampleHelloWorld) (ev : Events) :
    UpdateResult :=
  let s1 : ExampleHelloWorld :=
    { s with m_width := ev.width, m_height := ev.height, m_debug := ev.debug,
             m_reset := ev.reset, m_mouseState := ev.mouse }
  if !ev.exit then
    let gui : List Call :=
      [ Call.imguiBeginFrame s1.m_mouseState.m_mx s1.m_mouseState.m_my
          (mouseButtons K s1.m_mouseState) s1.m_mouseState.m_mz
          (s1.m_width % UINT16_MOD) (s1.m_height % UINT16_MOD),
        Call.showExampleDialog,
        Call.imguiEndFrame,
        Call.setViewRect 0 0 0 (s1.m_width % UINT16_MOD) (s1.m_height % UINT16_MOD) ]
    let object_count := object_count_step s1.object_count
    let vertex_count := vertex_count object_count
    let resized := resizeBuffer vertex_count s1.vertices s1.indexes
    let uploads := updateBufferData resized.1 resized.2 s1.vbh s1.ibh
    let s2 : ExampleHelloWorld :=
      { s1 with object_count := object_count, vertices := resized.1, indexes := resized.2 }
    { ret := true
      app := s2
      calls := gui ++ uploads ++
        [ Call.touch 0,
          Call.dbgTextPrintf 0 0 0x0f "Vertices count %d" object_count,
          Call.frame ] }
  else
    { ret := false, app := s1, calls := [] }

/-- The application state after `update` has been called once for each entry
of `evs`, in order. -/
def frames (K : Constants) (s : ExampleHelloWorld) : List Events → ExampleHelloWorld
  | [] => s
  | ev :: evs => frames K (s.update K ev).app evs

/-- How many of the calls did not see a shutdown request. -/
def successes (evs : List Events) : Nat :=
  (evs.filter (fun ev => !ev.exit)).length

/-- Whether a call is one of the two buffer updates. -/
def Call.isBufferUpdate : Call → Bool
  | Call.updateVertexBuffer _ _ _ => true
  | Call.updateIndexBuffer _ _ _ => true
  | _ => false

/-- Whether the array a call uploads holds default elements only; calls that
upload nothing pass. -/
def Call.uploadsOnlyZero : Call → Bool
  | Call.updateVertexBuffer _ _ mem => mem.data.all (fun v => decide (v = default))
  | Call.updateIndexBuffer _ _ mem => mem.data.all (fun i => decide (i = 0))
  | _ => true

/-- The states the application can be in: freshly constructed, and from there
any number of `init` and `update` calls with any arguments and poll results. -/
inductive Reachable (K : Constants) : ExampleHelloWorld → Prop
  | construct (mem : ExampleHelloWorld) : Reachable K (ExampleHelloWorld.construct mem)
  | init (s : ExampleHelloWorld) (w h vbh ibh : Nat) :
      Reachable K s → Reachable K (s.init K w h vbh ibh)
  | update (s : ExampleHelloWorld) (ev : Events) :
      Reachable K s → Reachable K (s.update K ev).app

/-- What every reachable state satisfies: the counter stays in range, both
vectors have the same length, which is 0 before the first rendered frame and
three times the counter afterwards, and every stored element is the default. -/
structure Inv (s : ExampleHelloWorld) : Prop where
  lo : 53000 ≤ s.object_count
  hi : s.object_count ≤ 55000
  same : s.indexes.length = s.vertices.length
  len : (s.vertices = [] ∧ s.object_count = 53000) ∨
    (s.vertices.length = 3 * s.object_count ∧ 53001 ≤ s.object_count)
  vzero : ∀ v ∈ s.vertices, v = default
  izero : ∀ i ∈ s.indexes, i = 0

/-- The application as the harness first hands it to `update`: constructed,
then initialised. -/
def start (K : Constants) (mem : ExampleHelloWorld) (w h vbh ibh : Nat) :
    ExampleHelloWorld :=
  (ExampleHelloWorld.construct mem).init K w h vbh ibh

/-! ## Sample inputs -/

/-- One possible assignment of the header constants. -/
def sampleConstants : Constants :=
  { BGFX_DEBUG_TEXT := 0x8, BGFX_RESET_VSYNC := 0x80,
    IMGUI_MBUT_LEFT := 0x01, IMGUI_MBUT_RIGHT := 0x02, IMGUI_MBUT_MIDDLE := 0x04 }

/-- A mouse at the origin with no button pressed. -/
def idleMouse : MouseState :=
  { m_mx := 0, m_my := 0, m_mz := 0, m_buttons := fun _ => 0 }

/-- Storage holding zeroes in every scalar member. -/
def blankStorage : ExampleHelloWorld :=
  { vertices := [], indexes := [], vbh := 0, ibh := 0, object_count := 0,
    m_mouseState := idleMouse, m_width := 0, m_height := 0, m_debug := 0, m_reset := 0 }

/-- A poll that does not ask for shutdown and reports a 1280 by 720 window. -/
def pollContinue : Events :=
  { exit := false, width := 1280, height := 720, debug := 0x8, reset := 0x80,
    mouse := idleMouse }

/-- A poll that asks for shutdown. -/
def pollExit : Events :=
  { exit := true, width := 1280, height := 720, debug := 0x8, reset := 0x80,
    mouse := idleMouse }

/-- The sample application right after construction and `init`, with buffer
handles 0 and 1. -/
def sampleStart : ExampleHelloWorld :=
  start sampleConstants blankStorage 1280 720 0 1

/-! ## Facts about `vector_resize` and `resizeBuffer` -/

theorem vector_resize_length {α : Type} (d : α) (v : List α) (n : Nat) :
    (vector_resize d v n).length = n := by
  unfold vector_resize
  split
  · rw [List.length_take]; omega
  · rw [List.length_append, List.length_replicate]; omega

theorem vector_resize_take {α : Type} (d : α) (v : List α) (n : Nat) :
    (vector_resize d v n).take (min v.length n) = v.take (min v.length n) := by
  unfold vector_resize
  split
  · rename_i h
    rw [List.take_take]
    congr 1
    omega
  · rename_i h
    have hm : min v.length n = v.length := by omega
    rw [hm, List.take_left, List.take_length]

theorem vector_resize_shrink {α : Type} (d : α) (v : List α) (n : Nat)
    (h : n ≤ v.length) : vector_resize d v n = v.take n := by
  unfold vector_resize
  split
  · rfl
  · have hn : n = v.length := by omega
    subst hn
    simp

theorem vector_resize_getElem?_old {α : Type} (d : α) (v : List α) (n k : Nat)
    (hk : k < min v.length n) : (vector_resize d v n)[k]? = v[k]? := by
  unfold vector_resize
  split
  · rw [List.getElem?_take]
    simp
    omega
  · rw [List.getElem?_append_left (by omega)]

theorem vector_resize_getElem?_new {α : Type} (d : α) (v : List α) (n k : Nat)
    (hk : v.length ≤ k) (hn : k < n) : (vector_resize d v n)[k]? = some d := by
  unfold vector_resize
  split
  · omega
  · rw [List.getElem?_append_right hk, List.getElem?_replicate]
    simp
    omega

theorem vector_resize_same {α : Type} (d : α) (v : List α) :
    vector_resize d v v.length = v := by
  simp [vector_resize]

theorem vector_resize_all {α : Type} (d : α) (v : List α) (n : Nat)
    (h : ∀ a ∈ v, a = d) : ∀ a ∈ vector_resize d v n, a = d := by
  intro a ha
  unfold vector_resize at ha
  split at ha
  · exact h a (List.mem_of_mem_take ha)
  · rcases List.mem_append.mp ha with h1 | h1
    · exact h a h1
    · exact (List.mem_replicate.mp h1).2

theorem vector_resize_extends {α : Type} (d : α) (v : List α) (n : Nat)
    (h : v.length ≤ n) : v <+: vector_resize d v n := by
  unfold vector_resize
  rw [if_neg (by omega)]
  exact List.prefix_append _ _

/-! ## One call of `update` -/

theorem update_exit_ret (K : Constants) (s : ExampleHelloWorld) (ev : Events)
    (h : ev.exit = true) : (s.update K ev).ret = false := by
  simp [ExampleHelloWorld.update, h]

theorem update_exit_calls (K : Constants) (s : ExampleHelloWorld) (ev : Events)
    (h : ev.exit = true) : (s.update K ev).calls = [] := by
  simp [ExampleHelloWorld.update, h]

theorem update_exit_data (K : Constants) (s : ExampleHelloWorld) (ev : Events)
    (h : ev.exit = true) :
    (s.update K ev).app.object_count = s.object_count ∧
      (s.update K ev).app.vertices = s.vertices ∧
      (s.update K ev).app.indexes = s.indexes := by
  simp [ExampleHelloWorld.update, h]

theorem update_ok_ret (K : Constants) (s : ExampleHelloWorld) (ev : Events)
    (h : ev.exit = false) : (s.update K ev).ret = true := by
  simp [ExampleHelloWorld.update, h]

theorem update_ok_object_count (K : Constants) (s : ExampleHelloWorld) (ev : Events)
    (h : ev.exit = false) :
    (s.update K ev).app.object_count = object_count_step s.object_count := by
  simp [ExampleHelloWorld.update, h]

theorem update_ok_vertices (K : Constants) (s : ExampleHelloWorld) (ev : Events)
    (h : ev.exit = false) :
    (s.update K ev).app.vertices =
      vector_resize default s.vertices (vertex_count (object_count_step s.object_count)) := by
  simp [ExampleHelloWorld.update, h, resizeBuffer]

theorem update_ok_indexes (K : Constants) (s : ExampleHelloWorld) (ev : Events)
    (h : ev.exit = false) :
    (s.update K ev).app.indexes =
      vector_resize 0 s.indexes (vertex_count (object_count_step s.object_count)) := by
  simp [ExampleHelloWorld.update, h, resizeBuffer]

theorem update_ok_uploads (K : Constants) (s : ExampleHelloWorld) (ev : Events)
    (h : ev.exit = false) :
    (s.update K ev).calls.filter Call.isBufferUpdate =
      updateBufferData (s.update K ev).app.vertices (s.update K ev).app.indexes s.vbh s.ibh := by
  simp [ExampleHelloWorld.update, h, updateBufferData, Call.isBufferUpdate, List.filter]

theorem update_ok_calls (K : Constants) (s : ExampleHelloWorld) (ev : Events)
    (h : ev.exit = false) :
    (s.update K ev).calls =
      [ Call.imguiBeginFrame ev.mouse.m_mx ev.mouse.m_my (mouseButtons K ev.mouse)
          ev.mouse.m_mz (ev.width % UINT16_MOD) (ev.height % UINT16_MOD),
        Call.showExampleDialog,
        Call.imguiEndFrame,
        Call.setViewRect 0 0 0 (ev.width % UINT16_MOD) (ev.height % UINT16_MOD) ]
      ++ updateBufferData (s.update K ev).app.vertices (s.update K ev).app.indexes
          s.vbh s.ibh
      ++ [ Call.touch 0,
           Call.dbgTextPrintf 0 0 0x0f "Vertices count %d" (s.update K ev).app.object_count,
           Call.frame ] := by
  simp [ExampleHelloWorld.update, h]

/-! ## Arithmetic of the counter -/

theorem object_count_step_lt {c : Nat} (h : c < 55000) : object_count_step c = c + 1 := by
  unfold object_count_step UINT32_MOD
  rw [if_pos h]
  omega

theorem object_count_step_ge {c : Nat} (h : 55000 ≤ c) (hc : c < UINT32_MOD) :
    object_count_step c = c := by
  unfold object_count_step
  unfold UINT32_MOD at hc ⊢
  rw [if_neg (by omega)]
  omega

theorem object_count_step_eq {c : Nat} (hc : c < UINT32_MOD) :
    object_count_step c = c + (if c < 55000 then 1 else 0) := by
  by_cases h : c < 55000
  · rw [object_count_step_lt h, if_pos h]
  · rw [object_count_step_ge (by omega) hc, if_neg h, Nat.add_zero]

theorem vertex_count_small {c : Nat} (h : c ≤ 55000) : vertex_count c = 3 * c := by
  unfold vertex_count UINT32_MOD
  omega

/-! ## The invariant of the frame loop -/

theorem inv_construct (mem : ExampleHelloWorld) : Inv (ExampleHelloWorld.construct mem) := by
  refine ⟨?_, ?_, rfl, Or.inl ⟨rfl, rfl⟩, ?_, ?_⟩
  · show 53000 ≤ 53000
    omega
  · show 53000 ≤ 55000
    omega
  · intro v hv
    exact absurd hv (List.not_mem_nil v)
  · intro i hi
    exact absurd hi (List.not_mem_nil i)

theorem inv_init (K : Constants) (s : ExampleHelloWorld) (w h vbh ibh : Nat)
    (hs : Inv s) : Inv (s.init K w h vbh ibh) :=
  ⟨hs.lo, hs.hi, hs.same, hs.len, hs.vzero, hs.izero⟩

theorem inv_update (K : Constants) (s : ExampleHelloWorld) (ev : Events)
    (hs : Inv s) : Inv (s.update K ev).app := by
  cases hx : ev.exit with
  | true =>
    obtain ⟨h1, h2, h3⟩ := update_exit_data K s ev hx
    constructor
    · rw [h1]; exact hs.lo
    · rw [h1]; exact hs.hi
    · rw [h2, h3]; exact hs.same
    · rw [h1, h2]; exact hs.len
    · rw [h2]; exact hs.vzero
    · rw [h3]; exact hs.izero
  | false =>
    have h1 := update_ok_object_count K s ev hx
    have h2 := update_ok_vertices K s ev hx
    have h3 := update_ok_indexes K s ev hx
    have hlo := hs.lo
    have hhi := hs.hi
    have hstep : 53000 ≤ object_count_step s.object_count ∧
        object_count_step s.object_count ≤ 55000 ∧
        s.object_count ≤ object_count_step s.object_count := by
      by_cases hc : s.object_count < 55000
      · rw [object_count_step_lt hc]; omega
      · rw [object_count_step_ge (by omega) (by unfold UINT32_MOD; omega)]; omega
    constructor
    · rw [h1]; exact hstep.1
    · rw [h1]; exact hstep.2.1
    · rw [h2, h3, vector_resize_length, vector_resize_length]
    · right
      rw [h1, h2, vector_resize_length, vertex_count_small hstep.2.1]
      refine ⟨rfl, ?_⟩
      by_cases hc : s.object_count < 55000
      · rw [object_count_step_lt hc]; omega
      · rcases hs.len with ⟨_, h⟩ | ⟨_, h⟩
        · omega
        · omega
    · rw [h2]; exact vector_resize_all _ _ _ hs.vzero
    · rw [h3]; exact vector_resize_all _ _ _ hs.izero

theorem reachable_inv (K : Constants) (s : ExampleHelloWorld) (h : Reachable K s) :
    Inv s := by
  induction h with
  | construct mem => exact inv_construct mem
  | init s w h vbh ibh _ ih => exact inv_init K s w h vbh ibh ih
  | update s ev _ ih => exact inv_update K s ev ih

theorem reachable_frames (K : Constants) (evs : List Events) :
    ∀ s : ExampleHelloWorld, Reachable K s → Reachable K (frames K s evs) := by
  induction evs with
  | nil => intro s h; exact h
  | cons ev evs ih => intro s h; exact ih _ (Reachable.update s ev h)

theorem reachable_start (K : Constants) (mem : ExampleHelloWorld) (w h vbh ibh : Nat) :
    Reachable K (start K mem w h vbh ibh) :=
  Reachable.init _ w h vbh ibh (Reachable.construct mem)

/-! ## Many calls of `update` -/

theorem successes_cons (ev : Events) (evs : List Events) :
    successes (ev :: evs) = (if ev.exit then 0 else 1) + successes evs := by
  unfold successes
  cases hx : ev.exit
  · simp only [List.filter, hx, Bool.not_false, List.length_cons]
    simp only [Bool.false_eq_true, if_false]
    omega
  · simp only [List.filter, hx, Bool.not_true]
    simp only [if_true]
    omega

theorem successes_replicate (n : Nat) (ev : Events) (h : ev.exit = false) :
    successes (List.replicate n ev) = n := by
  induction n with
  | zero => rfl
  | succ n ih => rw [List.replicate_succ, successes_cons, ih, h]; simp; omega

theorem frames_object_count (K : Constants) (evs : List Events) :
    ∀ s : ExampleHelloWorld, s.object_count ≤ 55000 →
      (frames K s evs).object_count = min (s.object_count + successes evs) 55000 := by
  induction evs with
  | nil =>
    intro s hs
    show s.object_count = min (s.object_count + 0) 55000
    omega
  | cons ev evs ih =>
    intro s hs
    show (frames K (s.update K ev).app evs).object_count = _
    rw [successes_cons]
    cases hx : ev.exit with
    | true =>
      have h1 := (update_exit_data K s ev hx).1
      rw [ih _ (by rw [h1]; exact hs), h1]
      simp
    | false =>
      have h1 := update_ok_object_count K s ev hx
      by_cases hc : s.object_count < 55000
      · rw [object_count_step_lt hc] at h1
        rw [ih _ (by rw [h1]; omega), h1]
        simp
        omega
      · rw [object_count_step_ge (by omega) (by unfold UINT32_MOD; omega)] at h1
        rw [ih _ (by rw [h1]; exact hs), h1]
        simp
        omega

theorem start_object_count (K : Constants) (mem : ExampleHelloWorld) (w h vbh ibh : Nat) :
    (start K mem w h vbh ibh).object_count = 53000 := rfl

/-! ## The claims -/

/-- C1: starting from the initial application state, after any sequence of
`update` calls of which `n` did not see a shutdown request, `object_count` is
`min (53000 + n) 55000`; so it is below 55000 while `n < 2000`, is 55000 at
`n = 2000`, and is 55000 for every `n ≥ 2000`. -/
theorem C1_object_count_after_frames (K : Constants) (mem : ExampleHelloWorld)
    (w h vbh ibh : Nat) (evs : List Events) :
    (frames K (start K mem w h vbh ibh) evs).object_count
        = min (53000 + successes evs) 55000 ∧
      (successes evs < 2000 →
        (frames K (start K mem w h vbh ibh) evs).object_count < 55000) ∧
      (successes evs = 2000 →
        (frames K (start K mem w h vbh ibh) evs).object_count = 55000) ∧
      (2000 ≤ successes evs →
        (frames K (start K mem w h vbh ibh) evs).object_count = 55000) := by
  have h := frames_object_count K evs (start K mem w h vbh ibh)
    (by rw [start_object_count]; omega)
  rw [start_object_count] at h
  refine ⟨h, ?_, ?_, ?_⟩ <;> intro hn <;> rw [h] <;> omega

/-- C2: in every reachable state, `53000 ≤ object_count ≤ 55000`. -/
theorem C2_object_count_bounds (K : Constants) (s : ExampleHelloWorld)
    (h : Reachable K s) : 53000 ≤ s.object_count ∧ s.object_count ≤ 55000 :=
  ⟨(reachable_inv K s h).lo, (reachable_inv K s h).hi⟩

/-- Witness of C2 at the state reached from the sample start by a rendered
frame, a shutdown poll and another rendered frame. -/
theorem C2_object_count_bounds_witness :
    Reachable sampleConstants
        (frames sampleConstants sampleStart [pollContinue, pollExit, pollContinue]) ∧
      53000 ≤ (frames sampleConstants sampleStart
        [pollContinue, pollExit, pollContinue]).object_count ∧
      (frames sampleConstants sampleStart
        [pollContinue, pollExit, pollContinue]).object_count ≤ 55000 :=
  ⟨reachable_frames _ _ _ (reachable_start _ _ _ _ _ _),
    C2_object_count_bounds _ _ (reachable_frames _ _ _ (reachable_start _ _ _ _ _ _))⟩

/-- C3: a rendered frame leaves `object_count` at `c + 1` when the value `c`
it held was below 55000 and at `c` otherwise. From 53000 it becomes 53001 and
`vertex_count` is 159003; 55000 stays 55000, and in the ceiling state (both
vectors of length 165000) the frame leaves the counter and both vectors as
they were. -/
theorem C3_frame_increments_below_ceiling (K : Constants) (s : ExampleHelloWorld)
    (ev : Events) (hx : ev.exit = false) (hc : s.object_count < UINT32_MOD) :
    (s.update K ev).app.object_count
        = (if s.object_count < 55000 then s.object_count + 1 else s.object_count) ∧
      (s.object_count = 53000 →
        (s.update K ev).app.object_count = 53001 ∧
        vertex_count (s.update K ev).app.object_count = 159003 ∧
        (s.update K ev).app.vertices.length = 159003 ∧
        (s.update K ev).app.indexes.length = 159003) ∧
      (s.object_count = 55000 → (s.update K ev).app.object_count = 55000) ∧
      (s.object_count = 55000 → s.vertices.length = 165000 → s.indexes.length = 165000 →
        (s.update K ev).app.object_count = s.object_count ∧
        (s.update K ev).app.vertices = s.vertices ∧
        (s.update K ev).app.indexes = s.indexes) := by
  have h1 := update_ok_object_count K s ev hx
  have h2 := update_ok_vertices K s ev hx
  have h3 := update_ok_indexes K s ev hx
  refine ⟨?_, ?_, ?_, ?_⟩
  · rw [h1]
    by_cases h : s.object_count < 55000
    · rw [if_pos h, object_count_step_lt h]
    · rw [if_neg h, object_count_step_ge (by omega) hc]
  · intro h
    have hs : object_count_step s.object_count = 53001 := by
      rw [object_count_step_lt (by omega), h]
    have hv : vertex_count 53001 = 159003 := by
      rw [vertex_count_small (by omega)]
    rw [h1, h2, h3, hs, hv, vector_resize_length, vector_resize_length]
    exact ⟨rfl, rfl, rfl, rfl⟩
  · intro h
    rw [h1, object_count_step_ge (by omega) hc, h]
  · intro h hv hi
    have hs : object_count_step s.object_count = s.object_count :=
      object_count_step_ge (by omega) hc
    have hvc : vertex_count s.object_count = 165000 := by
      rw [vertex_count_small (by omega), h]
    rw [h1, h2, h3, hs, hvc]
    refine ⟨rfl, ?_, ?_⟩
    · rw [← hv]; exact vector_resize_same _ _
    · rw [← hi]; exact vector_resize_same _ _

/-- Witness of C3: the first rendered frame of the sample application. -/
theorem C3_frame_increments_below_ceiling_witness :
    pollContinue.exit = false ∧ sampleStart.object_count < UINT32_MOD ∧
      (sampleStart.update sampleConstants pollContinue).app.object_count = 53001 :=
  ⟨rfl, by unfold UINT32_MOD; rw [show sampleStart.object_count = 53000 from rfl]; omega,
    ((C3_frame_increments_below_ceiling sampleConstants sampleStart pollContinue rfl
      (by unfold UINT32_MOD; rw [show sampleStart.object_count = 53000 from rfl]; omega)).2.1
        rfl).1⟩

/-- C4: after every rendered frame from a reachable state, `vertex_count` is
exactly three times the incremented `object_count` (the 32-bit product does not
wrap) and both vectors have exactly `vertex_count` elements. -/
theorem C4_vertex_count_and_lengths (K : Constants) (s : ExampleHelloWorld)
    (ev : Events) (hr : Reachable K s) (hx : ev.exit = false) :
    (s.update K ev).app.object_count = object_count_step s.object_count ∧
      vertex_count (s.update K ev).app.object_count
        = 3 * (s.update K ev).app.object_count ∧
      (s.update K ev).app.vertices.length
        = vertex_count (s.update K ev).app.object_count ∧
      (s.update K ev).app.indexes.length
        = vertex_count (s.update K ev).app.object_count := by
  have h1 := update_ok_object_count K s ev hx
  have h2 := update_ok_vertices K s ev hx
  have h3 := update_ok_indexes K s ev hx
  have hi := (reachable_inv K _ (Reachable.update s ev hr)).hi
  refine ⟨h1, vertex_count_small hi, ?_, ?_⟩
  · rw [h2, vector_resize_length, h1]
  · rw [h3, vector_resize_length, h1]

/-- Witness of C4: the first rendered frame of the sample application. -/
theorem C4_vertex_count_and_lengths_witness :
    Reachable sampleConstants sampleStart ∧ pollContinue.exit = false ∧
      (sampleStart.update sampleConstants pollContinue).app.vertices.length
        = 3 * (sampleStart.update sampleConstants pollContinue).app.object_count :=
  ⟨reachable_start _ _ _ _ _ _, rfl,
    (C4_vertex_count_and_lengths sampleConstants sampleStart pollContinue
      (reachable_start _ _ _ _ _ _) rfl).2.2.1.trans
    (C4_vertex_count_and_lengths sampleConstants sampleStart pollContinue
      (reachable_start _ _ _ _ _ _) rfl).2.1⟩

/-- C5: `resizeBuffer size vertices indexes` leaves both vectors with exactly
`size` elements; the first `min (old length) size` elements of each are
unchanged, so a resize to at most the old length is truncation to a prefix;
and every position at or past the old length holds a default element: the
vertex with all five fields zero, the index 0. -/
theorem C5_resizeBuffer_spec (size : Nat) (vertices : List Vertex) (indexes : List Nat) :
    (resizeBuffer size vertices indexes).1.length = size ∧
      (resizeBuffer size vertices indexes).2.length = size ∧
      (∀ k, k < min vertices.length size →
        (resizeBuffer size vertices indexes).1[k]? = vertices[k]?) ∧
      (∀ k, k < min indexes.length size →
        (resizeBuffer size vertices indexes).2[k]? = indexes[k]?) ∧
      ((resizeBuffer size vertices indexes).1.take (min vertices.length size)
          = vertices.take (min vertices.length size)) ∧
      ((resizeBuffer size vertices indexes).2.take (min indexes.length size)
          = indexes.take (min indexes.length size)) ∧
      (size ≤ vertices.length →
        (resizeBuffer size vertices indexes).1 = vertices.take size) ∧
      (size ≤ indexes.length →
        (resizeBuffer size vertices indexes).2 = indexes.take size) ∧
      (∀ k, vertices.length ≤ k → k < size →
        (resizeBuffer size vertices indexes).1[k]?
          = some { x := ⟨0⟩, y := ⟨0⟩, color := 0, tex_x := ⟨0⟩, tex_y := ⟨0⟩ }) ∧
      (∀ k, indexes.length ≤ k → k < size →
        (resizeBuffer size vertices indexes).2[k]? = some 0) :=
  ⟨vector_resize_length _ _ _, vector_resize_length _ _ _,
    fun k hk => vector_resize_getElem?_old _ _ _ k hk,
    fun k hk => vector_resize_getElem?_old _ _ _ k hk,
    vector_resize_take _ _ _, vector_resize_take _ _ _,
    fun h => vector_resize_shrink _ _ _ h,
    fun h => vector_resize_shrink _ _ _ h,
    fun k h1 h2 => vector_resize_getElem?_new _ _ _ k h1 h2,
    fun k h1 h2 => vector_resize_getElem?_new _ _ _ k h1 h2⟩

/-- C6: in a rendered frame from a reachable state the buffer updates issued
are exactly the two of `updateBufferData`, both at offset 0: the vertex buffer
handle receives `20 × length of vertices` bytes (20 being the size of a
`Vertex`) and the index buffer handle `4 × length of indexes` bytes; with the
incremented object count `c` these are `60 × c` and `12 × c` bytes, that is
3180060 and 636012 bytes on the first frame. -/
theorem C6_upload_calls_and_sizes (K : Constants) (s : ExampleHelloWorld)
    (ev : Events) (hr : Reachable K s) (hx : ev.exit = false) :
    (s.update K ev).calls.filter Call.isBufferUpdate
        = updateBufferData (s.update K ev).app.vertices (s.update K ev).app.indexes
            (s.update K ev).app.vbh (s.update K ev).app.ibh ∧
      (s.update K ev).calls.filter Call.isBufferUpdate
        = [ Call.updateVertexBuffer s.vbh 0
              ⟨(s.update K ev).app.vertices, (s.update K ev).app.vertices.length * 20⟩,
            Call.updateIndexBuffer s.ibh 0
              ⟨(s.update K ev).app.indexes, (s.update K ev).app.indexes.length * 4⟩ ] ∧
      sizeof_Vertex = 20 ∧
      (s.update K ev).app.vertices.length * 20 = 60 * (s.update K ev).app.object_count ∧
      (s.update K ev).app.indexes.length * 4 = 12 * (s.update K ev).app.object_count ∧
      (s.object_count = 53000 →
        (s.update K ev).app.vertices.length * 20 = 3180060 ∧
        (s.update K ev).app.indexes.length * 4 = 636012) := by
  have hu := update_ok_uploads K s ev hx
  have hinv := reachable_inv K _ (Reachable.update s ev hr)
  have h1 := update_ok_object_count K s ev hx
  have h2 := update_ok_vertices K s ev hx
  have hlen : (s.update K ev).app.vertices.length = 3 * (s.update K ev).app.object_count := by
    rw [h2, vector_resize_length, ← h1]
    exact vertex_count_small hinv.hi
  have hsame := hinv.same
  have hhi := hinv.hi
  refine ⟨?_, ?_, rfl, by omega, by omega, ?_⟩
  · rw [hu]
    simp [ExampleHelloWorld.update, hx]
  · rw [hu]
    unfold updateBufferData sizeof_Vertex sizeof_float sizeof_uint32_t UINT32_MOD
    have e1 : (s.update K ev).app.vertices.length % 2 ^ 32 * (4 + 4 + 4 + 4 + 4) % 2 ^ 32
        = (s.update K ev).app.vertices.length * 20 := by omega
    have e2 : (s.update K ev).app.indexes.length % 2 ^ 32 * 4 % 2 ^ 32
        = (s.update K ev).app.indexes.length * 4 := by omega
    rw [e1, e2]
  · intro h53
    have : (s.update K ev).app.object_count = 53001 := by
      rw [h1, object_count_step_lt (by omega), h53]
    omega

/-- Witness of C6: the first rendered frame of the sample application uploads
3180060 and 636012 bytes. -/
theorem C6_upload_calls_and_sizes_witness :
    Reachable sampleConstants sampleStart ∧ pollContinue.exit = false ∧
      (sampleStart.update sampleConstants pollContinue).app.vertices.length * 20 = 3180060 ∧
      (sampleStart.update sampleConstants pollContinue).app.indexes.length * 4 = 636012 :=
  ⟨reachable_start _ _ _ _ _ _, rfl,
    (C6_upload_calls_and_sizes sampleConstants sampleStart pollContinue
      (reachable_start _ _ _ _ _ _) rfl).2.2.2.2.2 rfl⟩

/-- C7: in every reachable state every index is 0 and every vertex is the
default vertex (all five fields zero), and whatever the next poll returns,
every buffer update the next call of `update` issues uploads an array of
default elements only. -/
theorem C7_buffers_hold_only_defaults (K : Constants) (s : ExampleHelloWorld)
    (hr : Reachable K s) :
    (∀ i ∈ s.indexes, i = 0) ∧
      (∀ v ∈ s.vertices,
        v = { x := ⟨0⟩, y := ⟨0⟩, color := 0, tex_x := ⟨0⟩, tex_y := ⟨0⟩ }) ∧
      (∀ ev : Events, ∀ c ∈ (s.update K ev).calls, c.uploadsOnlyZero = true) := by
  have hinv := reachable_inv K s hr
  refine ⟨hinv.izero, hinv.vzero, ?_⟩
  intro ev c hc
  cases hx : ev.exit with
  | true =>
    rw [update_exit_calls K s ev hx] at hc
    exact absurd hc (List.not_mem_nil c)
  | false =>
    have hinv2 := reachable_inv K _ (Reachable.update s ev hr)
    rw [update_ok_calls K s ev hx] at hc
    simp only [updateBufferData, List.mem_append, List.mem_cons, List.mem_singleton,
      List.not_mem_nil, or_false] at hc
    rcases hc with ((h | h | h | h) | h | h) | h | h | h <;> subst h
    · rfl
    · rfl
    · rfl
    · rfl
    · show List.all _ _ = true
      rw [List.all_eq_true]
      intro v hv
      exact decide_eq_true (hinv2.vzero v hv)
    · show List.all _ _ = true
      rw [List.all_eq_true]
      intro i hi
      exact decide_eq_true (hinv2.izero i hi)
    · rfl
    · rfl
    · rfl

/-- Witness of C7 at the state reached from the sample start by two rendered
frames. -/
theorem C7_buffers_hold_only_defaults_witness :
    Reachable sampleConstants (frames sampleConstants sampleStart [pollContinue, pollContinue]) ∧
      (∀ i ∈ (frames sampleConstants sampleStart [pollContinue, pollContinue]).indexes,
        i = 0) :=
  ⟨reachable_frames _ _ _ (reachable_start _ _ _ _ _ _),
    (C7_buffers_hold_only_defaults _ _
      (reachable_frames _ _ _ (reachable_start _ _ _ _ _ _))).1⟩

/-- C8: `update` returns `false` exactly when the poll signals shutdown; then
`object_count`, `vertices` and `indexes` are unchanged and no call at all is
issued (so no viewport, buffer-update, touch, debug-text or frame-advance
call). When the poll does not signal shutdown, `update` returns `true`. -/
theorem C8_update_false_iff_shutdown (K : Constants) (s : ExampleHelloWorld)
    (ev : Events) :
    ((s.update K ev).ret = false ↔ ev.exit = true) ∧
      (ev.exit = true →
        (s.update K ev).app.object_count = s.object_count ∧
        (s.update K ev).app.vertices = s.vertices ∧
        (s.update K ev).app.indexes = s.indexes ∧
        (s.update K ev).calls = []) ∧
      (ev.exit = false → (s.update K ev).ret = true) := by
  refine ⟨?_, ?_, update_ok_ret K s ev⟩
  · constructor
    · intro h
      cases hx : ev.exit with
      | true => rfl
      | false =>
        rw [update_ok_ret K s ev hx] at h
        exact absurd h (by decide)
    · exact update_exit_ret K s ev
  · intro hx
    obtain ⟨h1, h2, h3⟩ := update_exit_data K s ev hx
    exact ⟨h1, h2, h3, update_exit_calls K s ev hx⟩

/-- C9: the application starts with both vectors empty, and in every reachable
state the size a frame passes to `resizeBuffer` is at least the current length
of both vectors. Hence no call of `update` truncates: the old vectors are
prefixes of the new ones and the lengths do not decrease. The first rendered
frame takes the lengths from 0 to 159003, a later rendered frame adds exactly 3
while `object_count < 55000`, and at `object_count = 55000` the lengths are
165000 and stay 165000. -/
theorem C9_lengths_never_shrink (K : Constants) (s : ExampleHelloWorld) (ev : Events)
    (hr : Reachable K s) :
    (∀ mem w h vbh ibh, (start K mem w h vbh ibh).vertices = [] ∧
        (start K mem w h vbh ibh).indexes = []) ∧
      (s.vertices.length ≤ vertex_count (object_count_step s.object_count) ∧
        s.indexes.length ≤ vertex_count (object_count_step s.object_count)) ∧
      (s.vertices <+: (s.update K ev).app.vertices ∧
        s.indexes <+: (s.update K ev).app.indexes) ∧
      (s.vertices.length ≤ (s.update K ev).app.vertices.length ∧
        s.indexes.length ≤ (s.update K ev).app.indexes.length) ∧
      (ev.exit = false → s.vertices = [] →
        (s.update K ev).app.vertices.length = 159003 ∧
        (s.update K ev).app.indexes.length = 159003) ∧
      (ev.exit = false → s.vertices ≠ [] → s.object_count < 55000 →
        (s.update K ev).app.vertices.length = s.vertices.length + 3 ∧
        (s.update K ev).app.indexes.length = s.indexes.length + 3) ∧
      (s.object_count = 55000 →
        s.vertices.length = 165000 ∧ s.indexes.length = 165000 ∧
        (s.update K ev).app.vertices.length = 165000 ∧
        (s.update K ev).app.indexes.length = 165000) := by
  have hinv := reachable_inv K s hr
  have hlo := hinv.lo
  have hhi := hinv.hi
  have hsame := hinv.same
  have hstep : object_count_step s.object_count
      = s.object_count + (if s.object_count < 55000 then 1 else 0) :=
    object_count_step_eq (by unfold UINT32_MOD; omega)
  have hvc : vertex_count (object_count_step s.object_count)
      = 3 * object_count_step s.object_count := by
    apply vertex_count_small
    rw [hstep]
    split <;> omega
  have hlen : s.vertices.length = 0 ∧ s.object_count = 53000 ∨
      s.vertices.length = 3 * s.object_count ∧ 53001 ≤ s.object_count := by
    rcases hinv.len with ⟨h, h'⟩ | h
    · left; exact ⟨by rw [h]; rfl, h'⟩
    · right; exact h
  have hsize : s.vertices.length ≤ vertex_count (object_count_step s.object_count) := by
    rw [hvc, hstep]
    split <;> omega
  have hpre : s.vertices <+: (s.update K ev).app.vertices ∧
      s.indexes <+: (s.update K ev).app.indexes := by
    cases hx : ev.exit with
    | true =>
      obtain ⟨_, h2, h3⟩ := update_exit_data K s ev hx
      rw [h2, h3]
      exact ⟨List.prefix_refl _, List.prefix_refl _⟩
    | false =>
      rw [update_ok_vertices K s ev hx, update_ok_indexes K s ev hx]
      exact ⟨vector_resize_extends _ _ _ hsize, vector_resize_extends _ _ _ (by omega)⟩
  refine ⟨fun _ _ _ _ _ => ⟨rfl, rfl⟩, ⟨hsize, by omega⟩, hpre,
    ⟨hpre.1.length_le, hpre.2.length_le⟩, ?_, ?_, ?_⟩
  · intro hx hnil
    rw [update_ok_vertices K s ev hx, update_ok_indexes K s ev hx,
      vector_resize_length, vector_resize_length, hvc, hstep]
    have h0 : s.vertices.length = 0 := by rw [hnil]; rfl
    have h53 : s.object_count = 53000 := by
      rcases hlen with h | h <;> omega
    rw [h53]
    exact ⟨rfl, rfl⟩
  · intro hx hne hc
    rw [update_ok_vertices K s ev hx, update_ok_indexes K s ev hx,
      vector_resize_length, vector_resize_length, hvc, hstep, if_pos hc]
    have hpos : s.vertices.length ≠ 0 := fun h => hne (List.length_eq_zero.mp h)
    rcases hlen with h | h <;> omega
  · intro h55
    have hv : s.vertices.length = 165000 := by
      rcases hlen with h | h <;> omega
    refine ⟨hv, by omega, ?_⟩
    cases hx : ev.exit with
    | true =>
      obtain ⟨_, h2, h3⟩ := update_exit_data K s ev hx
      rw [h2, h3]
      exact ⟨hv, by omega⟩
    | false =>
      rw [update_ok_vertices K s ev hx, update_ok_indexes K s ev hx,
        vector_resize_length, vector_resize_length, hvc, hstep, if_neg (by omega), h55]
      exact ⟨rfl, rfl⟩

/-- Witness of C9: the first rendered frame of the sample application grows
both vectors from empty to 159003 elements. -/
theorem C9_lengths_never_shrink_witness :
    Reachable sampleConstants sampleStart ∧
      (sampleStart.update sampleConstants pollContinue).app.vertices.length = 159003 ∧
      (sampleStart.update sampleConstants pollContinue).app.indexes.length = 159003 :=
  ⟨reachable_start _ _ _ _ _ _,
    (C9_lengths_never_shrink sampleConstants sampleStart pollContinue
      (reachable_start _ _ _ _ _ _)).2.2.2.2.1 rfl rfl⟩

/-- C10, as stated, fails at the ceiling: after 2000 rendered frames the
reachable state has `object_count = 55000`, and `55000 + 1 ≤ 55000` is
false. -/
theorem C10_counterexample_at_ceiling :
    Reachable sampleConstants
        (frames sampleConstants sampleStart (List.replicate 2000 pollContinue)) ∧
      (frames sampleConstants sampleStart
        (List.replicate 2000 pollContinue)).object_count = 55000 ∧
      ¬ ((frames sampleConstants sampleStart
        (List.replicate 2000 pollContinue)).object_count + 1 ≤ 55000) := by
  have h := frames_object_count sampleConstants (List.replicate 2000 pollContinue)
    sampleStart (by rw [show sampleStart.object_count = 53000 from rfl]; omega)
  rw [successes_replicate 2000 pollContinue rfl,
    show sampleStart.object_count = 53000 from rfl] at h
  have h55 : (frames sampleConstants sampleStart
      (List.replicate 2000 pollContinue)).object_count = 55000 := by
    rw [h]; omega
  refine ⟨reachable_frames _ _ _ (reachable_start _ _ _ _ _ _), h55, ?_⟩
  rw [h55]
  omega

/-- C10, amended: in every reachable state no 32-bit computation of a frame
wraps. The incremented counter `object_count + (object_count < 55000)` is at
most 55000 (so `object_count + 1 ≤ 55000` whenever the increment is taken),
`3 × object_count ≤ 165000` before and after the increment, the vertex blob
size `20 × length of vertices` is at most 3300000 and the index blob size
`4 × length of indexes` at most 660000, in the state and after any call of
`update`; so each value reduced modulo `2 ^ 32` is the exact value. Moreover
for any `object_count` below `2 ^ 32` the increment does not wrap. -/
theorem C10_no_wraparound (K : Constants) (s : ExampleHelloWorld)
    (hr : Reachable K s) :
    s.object_count + (if s.object_count < 55000 then 1 else 0) ≤ 55000 ∧
      (s.object_count < 55000 → s.object_count + 1 ≤ 55000) ∧
      object_count_step s.object_count
        = s.object_count + (if s.object_count < 55000 then 1 else 0) ∧
      3 * s.object_count ≤ 165000 ∧
      3 * object_count_step s.object_count ≤ 165000 ∧
      vertex_count (object_count_step s.object_count)
        = 3 * object_count_step s.object_count ∧
      20 * s.vertices.length ≤ 3300000 ∧
      4 * s.indexes.length ≤ 660000 ∧
      (∀ ev : Events,
        20 * (s.update K ev).app.vertices.length ≤ 3300000 ∧
        4 * (s.update K ev).app.indexes.length ≤ 660000 ∧
        ((s.update K ev).app.vertices.length % UINT32_MOD) * sizeof_Vertex % UINT32_MOD
          = 20 * (s.update K ev).app.vertices.length ∧
        ((s.update K ev).app.indexes.length % UINT32_MOD) * sizeof_uint32_t % UINT32_MOD
          = 4 * (s.update K ev).app.indexes.length) ∧
      (∀ c : Nat, c < UINT32_MOD →
        c + (if c < 55000 then 1 else 0) < UINT32_MOD ∧
        object_count_step c = c + (if c < 55000 then 1 else 0)) := by
  have hinv := reachable_inv K s hr
  have hlo := hinv.lo
  have hhi := hinv.hi
  have hsame := hinv.same
  have hstep : object_count_step s.object_count
      = s.object_count + (if s.object_count < 55000 then 1 else 0) :=
    object_count_step_eq (by unfold UINT32_MOD; omega)
  have hle : s.object_count + (if s.object_count < 55000 then 1 else 0) ≤ 55000 := by
    split <;> omega
  have hlen : s.vertices.length ≤ 165000 := by
    rcases hinv.len with ⟨h, _⟩ | ⟨h, _⟩
    · rw [h]; exact Nat.zero_le _
    · omega
  refine ⟨hle, fun h => by omega, hstep, by omega, by omega,
    vertex_count_small (by omega), by omega, by omega, ?_, ?_⟩
  · intro ev
    have hinv2 := reachable_inv K _ (Reachable.update s ev hr)
    have hhi2 := hinv2.hi
    have hsame2 := hinv2.same
    have hlen2 : (s.update K ev).app.vertices.length ≤ 165000 := by
      rcases hinv2.len with ⟨h, _⟩ | ⟨h, _⟩
      · rw [h]; exact Nat.zero_le _
      · omega
    unfold sizeof_Vertex sizeof_float sizeof_uint32_t UINT32_MOD
    refine ⟨by omega, by omega, by omega, by omega⟩
  · intro c hc
    unfold UINT32_MOD at hc ⊢
    constructor
    · split <;> omega
    · exact object_count_step_eq (by unfold UINT32_MOD; omega)

/-- Witness of the amended C10 at the ceiling state reached after 2000
rendered frames. -/
theorem C10_no_wraparound_witness :
    Reachable sampleConstants
        (frames sampleConstants sampleStart (List.replicate 2000 pollContinue)) ∧
      3 * (frames sampleConstants sampleStart
        (List.replicate 2000 pollContinue)).object_count ≤ 165000 :=
  ⟨reachable_frames sampleConstants (List.replicate 2000 pollContinue) sampleStart
      (reachable_start _ _ _ _ _ _),
    (C10_no_wraparound sampleConstants
      (frames sampleConstants sampleStart (List.replicate 2000 pollContinue))
      (reachable_frames sampleConstants (List.replicate 2000 pollContinue) sampleStart
        (reachable_start _ _ _ _ _ _))).2.2.2.1⟩

end HelloWorld
